import Mathlib

/-!
Verification of the federation core of `activitypub-federation-rust`:
the remote-object resolver/cache (`src/core/object_id.rs`) and the
activity reception pipeline (`src/core/actix_web/inbox.rs`,
`src/core/axum/inbox.rs`).

The shallow embedding models URLs as strings, object instances and
remote (apub) representations as natural-number handles, timestamps as
integers (seconds), and the external collaborators (persistence trait
methods, the network fetcher, the signature verifier, the domain
validator, the activity handler) as oracle functions collected in
environment records.  Side effects are made explicit: an `Effects`
record logs every network fetch, every `delete` invocation and every
persistence write; the embedded functions thread it through in
state-passing style.
-/

/-- Errors of the core, following the crate's `Error` enum where the
variant is visible in `src/` (`NotFound`, `ObjectDeleted`, `RequestLimit`,
`ActivityBodyDigestInvalid`, `ActivitySignatureInvalid`) and the spec's
taxonomy for collaborator errors otherwise.  `FetchedObjectDeleted u` is
the `anyhow` error built in `ObjectId::dereference_from_http` when a
fetch reports the object deleted (the spec's `ObjectGone`).  `Other n`
stands for an arbitrary host-defined or network error. -/
inductive Err where
  | NotFound
  | ObjectDeleted
  | RequestLimit
  | ActivityBodyDigestInvalid
  | ActivitySignatureInvalid
  | MalformedUrl
  | DomainInvalid
  | SerdeError
  | FetchedObjectDeleted (url : String)
  | Other (n : Nat)
deriving DecidableEq, Repr

/-- Explicit log of the side effects performed during one operation:
`fetches` counts calls of `fetch_object_http` (the request counter),
`deletes` logs the objects on which `ApubObject::delete` was invoked,
`persists` logs the objects written to persistence by the host-supplied
`from_apub` / activity handlers. -/
structure Effects where
  fetches : Nat
  deletes : List Nat
  persists : List Nat
deriving DecidableEq, Repr

/-- The empty effects log. -/
def Effects.none : Effects := ⟨0, [], []⟩

/-- Oracle environment for the resolver: the externally supplied
capabilities consumed by `ObjectId` (`src/core/object_id.rs`), plus the
ambient build mode and clock used by `should_refetch_object`.
`fetchResult u` is the outcome of the network fetcher on `u`
(the fetch itself additionally bumps the counter); `dbRead` is
`ApubObject::read_from_apub_id`; `lastRefreshed` is
`ApubObject::last_refreshed_at`; `deleteResult` is the outcome of
`ApubObject::delete`; `fromApub` is `ApubObject::from_apub` and
`fromApubPersists` the persistence writes the host performs inside it;
`publicKey` is `Actor::public_key`. -/
structure Env where
  isLocal : String → Bool
  dbRead : String → Except Err (Option Nat)
  lastRefreshed : Nat → Option Int
  fetchResult : String → Except Err Nat
  fromApub : Nat → Except Err Nat
  fromApubPersists : Nat → List Nat
  deleteResult : Nat → Except Err Unit
  publicKey : Nat → String
  debugMode : Bool
  now : Int

/-- `ACTOR_REFETCH_INTERVAL_SECONDS` from `src/core/object_id.rs`. -/
def ACTOR_REFETCH_INTERVAL_SECONDS : Int := 24 * 60 * 60

/-- `ACTOR_REFETCH_INTERVAL_SECONDS_DEBUG` from `src/core/object_id.rs`. -/
def ACTOR_REFETCH_INTERVAL_SECONDS_DEBUG : Int := 20

/-- `should_refetch_object` from `src/core/object_id.rs`.  The source
reads the build mode via `cfg!(debug_assertions)` and the clock via
`Utc::now()`; both are explicit parameters here. -/
def should_refetch_object (debugAssertions : Bool) (now : Int)
    (last_refreshed : Int) : Bool :=
  let update_interval : Int :=
    if debugAssertions then ACTOR_REFETCH_INTERVAL_SECONDS_DEBUG
    else ACTOR_REFETCH_INTERVAL_SECONDS
  let refresh_limit := now - update_interval
  decide (last_refreshed < refresh_limit)

/-- `ObjectId::dereference_from_http` from `src/core/object_id.rs`:
fetch the object over HTTP (counting the fetch); if the fetch reports
the object deleted, invoke `delete` on the local copy when one was
passed along and surface the "fetched remote object which was deleted"
error; otherwise propagate fetch errors, and on success run
`from_apub`. -/
def dereference_from_http (env : Env) (self : String) (db_object : Option Nat)
    (eff : Effects) : Except Err Nat × Effects :=
  let eff1 : Effects := { eff with fetches := eff.fetches + 1 }
  match env.fetchResult self with
  | .error .ObjectDeleted =>
    match db_object with
    | some dbo =>
      let eff2 : Effects := { eff1 with deletes := eff1.deletes ++ [dbo] }
      match env.deleteResult dbo with
      | .error e => (.error e, eff2)
      | .ok _ => (.error (.FetchedObjectDeleted self), eff2)
    | none => (.error (.FetchedObjectDeleted self), eff1)
  | .error e => (.error e, eff1)
  | .ok res2 =>
    let eff3 : Effects :=
      { eff1 with persists := eff1.persists ++ env.fromApubPersists res2 }
    (env.fromApub res2, eff3)

/-- `ObjectId::dereference` from `src/core/object_id.rs`: read from the
database; for a local URL answer from the database only (`NotFound` when
absent); otherwise return a fresh-enough cached copy, refetch a stale
one over HTTP passing the cached copy along, and fetch over HTTP when
nothing is cached. -/
def dereference (env : Env) (self : String) (eff : Effects) :
    Except Err Nat × Effects :=
  match env.dbRead self with
  | .error e => (.error e, eff)
  | .ok db_object =>
    if env.isLocal self then
      match db_object with
      | none => (.error .NotFound, eff)
      | some o => (.ok o, eff)
    else
      match db_object with
      | some object =>
        match env.lastRefreshed object with
        | some last_refreshed_at =>
          if should_refetch_object env.debugMode env.now last_refreshed_at then
            dereference_from_http env self (some object) eff
          else
            (.ok object, eff)
        | none => (.ok object, eff)
      | none => dereference_from_http env self none eff

/-- `ObjectId::dereference_local` from `src/core/object_id.rs`:
database only, `NotFound` when absent. -/
def dereference_local (env : Env) (self : String) (eff : Effects) :
    Except Err Nat × Effects :=
  match env.dbRead self with
  | .error e => (.error e, eff)
  | .ok none => (.error .NotFound, eff)
  | .ok (some o) => (.ok o, eff)

/-- A parsed HTTP signature header, modelled structurally: the spec says
the signature covers the request method, the target URI and the signed
headers, produced with the actor's key.  `headersTag` stands for the
covered header values. -/
structure Sig where
  key : String
  method : String
  uri : String
  headersTag : String
deriving DecidableEq, Repr

/-- The header map of an inbound request, reduced to the two headers the
pipeline reads: the content digest (header "Digest") and the HTTP
signature header. -/
structure Headers where
  digest : Option String
  signatureHeader : Option Sig
deriving DecidableEq, Repr

/-- A parsed activity: its id and its actor reference (both URLs), as
exposed by `ActivityHandler::id` and `ActivityHandler::actor`. -/
structure Activity where
  id : String
  actor : String
deriving DecidableEq, Repr

/-- The platform request of the actix-web adapter, reduced to the parts
`receive_activity` reads: headers, method and target URI (the body
arrives as a separate argument there). -/
structure HttpRequest where
  headers : Headers
  method : String
  uri : String
deriving DecidableEq, Repr

/-- `ActivityData` of the axum adapter: headers, method, target URI and
body extracted from the platform request. -/
structure ActivityData where
  headers : Headers
  method : String
  uri : String
  body : String
deriving DecidableEq, Repr

/-- The actix-web adapter's success value (`HttpResponse::Ok().finish()`). -/
inductive HttpResponse where
  | Ok
deriving DecidableEq, Repr

/-- The six pipeline steps of `receive_activity`, used to log which
steps an execution reached. -/
inductive Step where
  | digest
  | parse
  | domainCheck
  | actorResolve
  | signatureCheck
  | dispatch
deriving DecidableEq, Repr

/-- The pipeline order: digest verification, parse, domain check, actor
resolution, signature verification, dispatch. -/
def pipelineSteps : List Step :=
  [Step.digest, Step.parse, Step.domainCheck, Step.actorResolve,
   Step.signatureCheck, Step.dispatch]

/-- Oracle environment for the reception pipeline: the collaborators
`receive_activity` consumes from outside `src/` —
`verify_inbox_hash` and `verify_signature` (`src/core/signatures.rs`),
`serde_json::from_slice` as `parseActivity`,
`FederationConfig::verify_url_and_domain`, and the activity's own
`receive` handler (`dispatchResult`, with the persistence writes the
host performs inside it in `dispatchPersists`). -/
structure InEnv where
  verifyInboxHash : Option String → String → Except Err Unit
  parseActivity : String → Except Err Activity
  verifyUrlAndDomain : Activity → Except Err Unit
  verifySignature : Headers → String → String → String → Except Err Unit
  dispatchResult : Activity → Except Err Unit
  dispatchPersists : Activity → List Nat

/-- `receive_activity` from `src/core/actix_web/inbox.rs`: digest
verification, parse, domain check, actor resolution via
`ObjectId::dereference` on the activity's actor, signature verification
against the resolved actor's public key, then dispatch; each step runs
only after all previous ones succeeded.  Besides the source's result it
returns the effects log and the list of steps reached. -/
def receive_activity_actix (env : Env) (ienv : InEnv) (request : HttpRequest)
    (body : String) (eff : Effects) :
    Except Err HttpResponse × Effects × List Step :=
  match ienv.verifyInboxHash request.headers.digest body with
  | .error e => (.error e, eff, [Step.digest])
  | .ok _ =>
    match ienv.parseActivity body with
    | .error e => (.error e, eff, [Step.digest, Step.parse])
    | .ok activity =>
      match ienv.verifyUrlAndDomain activity with
      | .error e => (.error e, eff, [Step.digest, Step.parse, Step.domainCheck])
      | .ok _ =>
        match dereference env activity.actor eff with
        | (.error e, eff1) =>
          (.error e, eff1,
           [Step.digest, Step.parse, Step.domainCheck, Step.actorResolve])
        | (.ok actor, eff1) =>
          match ienv.verifySignature request.headers request.method request.uri
              (env.publicKey actor) with
          | .error e =>
            (.error e, eff1,
             [Step.digest, Step.parse, Step.domainCheck, Step.actorResolve,
              Step.signatureCheck])
          | .ok _ =>
            let eff2 : Effects :=
              { eff1 with
                persists := eff1.persists ++ ienv.dispatchPersists activity }
            match ienv.dispatchResult activity with
            | .error e => (.error e, eff2, pipelineSteps)
            | .ok _ => (.ok HttpResponse.Ok, eff2, pipelineSteps)

/-- `receive_activity` from `src/core/axum/inbox.rs`: the same six
steps, reading body, headers, method and URI out of `ActivityData` and
returning unit on success. -/
def receive_activity_axum (env : Env) (ienv : InEnv)
    (activity_data : ActivityData) (eff : Effects) :
    Except Err Unit × Effects × List Step :=
  match ienv.verifyInboxHash activity_data.headers.digest activity_data.body with
  | .error e => (.error e, eff, [Step.digest])
  | .ok _ =>
    match ienv.parseActivity activity_data.body with
    | .error e => (.error e, eff, [Step.digest, Step.parse])
    | .ok activity =>
      match ienv.verifyUrlAndDomain activity with
      | .error e => (.error e, eff, [Step.digest, Step.parse, Step.domainCheck])
      | .ok _ =>
        match dereference env activity.actor eff with
        | (.error e, eff1) =>
          (.error e, eff1,
           [Step.digest, Step.parse, Step.domainCheck, Step.actorResolve])
        | (.ok actor, eff1) =>
          match ienv.verifySignature activity_data.headers activity_data.method
              activity_data.uri (env.publicKey actor) with
          | .error e =>
            (.error e, eff1,
             [Step.digest, Step.parse, Step.domainCheck, Step.actorResolve,
              Step.signatureCheck])
          | .ok _ =>
            let eff2 : Effects :=
              { eff1 with
                persists := eff1.persists ++ ienv.dispatchPersists activity }
            match ienv.dispatchResult activity with
            | .error e => (.error e, eff2, pipelineSteps)
            | .ok _ => (.ok (), eff2, pipelineSteps)

/-- Modelled from the spec: `verify_signature` of
`src/core/signatures.rs` is not under `src/`.  Per the spec it verifies,
with the resolved actor's public key, that the request's signature
covers the request method, target URI and signed headers; mismatch is
`SignatureInvalid` (the crate's `ActivitySignatureInvalid`). -/
def spec_verify_signature (headers : Headers) (method : String) (uri : String)
    (key : String) : Except Err Unit :=
  match headers.signatureHeader with
  | none => .error .ActivitySignatureInvalid
  | some s =>
    if s = { key := key, method := method, uri := uri, headersTag := s.headersTag } then
      .ok ()
    else
      .error .ActivitySignatureInvalid

/-- Modelled from the spec: the content hash recomputed by
`verify_inbox_hash` (`src/core/signatures.rs`, not under `src/`) over
the raw body.  The hash is abstracted as an injective tagging of the
body bytes. -/
def spec_digest (body : String) : String := "sha256=" ++ body

/-- Modelled from the spec: `verify_inbox_hash` of
`src/core/signatures.rs` is not under `src/`.  Per the spec it
recomputes a content hash over the raw body and compares it against the
declared digest header; mismatch is `DigestInvalid` (the crate's
`ActivityBodyDigestInvalid`). -/
def spec_verify_inbox_hash (digestHeader : Option String) (body : String) :
    Except Err Unit :=
  if digestHeader = some (spec_digest body) then .ok ()
  else .error .ActivityBodyDigestInvalid

/-- Modelled from the spec: the `url` crate backing `ObjectId`'s inner
`Url` is not under `src/`.  Per the spec an identifier's URL is a plain
absolute URL string; validity here means an `http` or `https` URL with a
nonempty remainder after the scheme. -/
def isValidUrlString (s : String) : Bool :=
  ("http://".data.isPrefixOf s.data && decide (7 < s.data.length)) ||
    ("https://".data.isPrefixOf s.data && decide (8 < s.data.length))

/-- Modelled from the spec: a parsed URL, carrying its string form. -/
structure Url where
  urlStr : String
deriving DecidableEq, Repr

/-- Modelled from the spec: `Url::parse`, accepting exactly the valid
absolute URL strings. -/
def Url.parse (s : String) : Option Url :=
  if isValidUrlString s then some ⟨s⟩ else none

/-- `ObjectId` from `src/core/object_id.rs` at the serialization level:
a newtype around a URL, declared `#[serde(transparent)]`, so its
serialized form is exactly the inner URL's serialized form with no
wrapping structure. -/
structure ObjectId where
  url : Url
deriving DecidableEq, Repr

/-- Deserializing an `ObjectId` from a JSON string value: parse the
string as a URL (`MalformedUrl` on failure) and wrap it; `transparent`
means nothing else is read. -/
def deserialize_object_id (s : String) : Except Err ObjectId :=
  match Url.parse s with
  | some u => .ok ⟨u⟩
  | none => .error .MalformedUrl

/-- Serializing an `ObjectId`: `transparent` over the URL, which
serializes as its bare string. -/
def serialize_object_id (o : ObjectId) : String := o.url.urlStr

/-- C5: `should_refetch_object` classifies a cached object as stale
exactly when its last-refreshed timestamp is strictly earlier than now
minus the refetch interval, the interval being 20 seconds under
`debug_assertions` and 24*60*60 seconds (one day) otherwise. -/
theorem should_refetch_iff_strictly_older (dbg : Bool) (now t : Int) :
    should_refetch_object dbg now t = true ↔
      t < now - (if dbg then (20 : Int) else 24 * 60 * 60) := by
  unfold should_refetch_object ACTOR_REFETCH_INTERVAL_SECONDS
    ACTOR_REFETCH_INTERVAL_SECONDS_DEBUG
  cases dbg <;> simp

/-- C2: for a local identifier, `dereference` leaves the effects log
untouched (in particular it performs no network fetch and never
increments the fetch counter) and answers `NotFound` whenever the object
is absent from persistence. -/
theorem dereference_local_url_db_only (env : Env) (u : String) (eff : Effects)
    (hl : env.isLocal u = true) :
    (dereference env u eff).2 = eff ∧
      (env.dbRead u = .ok none →
        (dereference env u eff).1 = .error Err.NotFound) := by
  unfold dereference
  cases hdb : env.dbRead u with
  | error e => simp [hdb]
  | ok ob => cases ob <;> simp [hdb, hl]

/-- Witness for C2: a concrete local identifier absent from
persistence. -/
def envLocalAbsent : Env where
  isLocal := fun _ => true
  dbRead := fun _ => .ok none
  lastRefreshed := fun _ => none
  fetchResult := fun _ => .error (.Other 0)
  fromApub := fun n => .ok n
  fromApubPersists := fun n => [n]
  deleteResult := fun _ => .ok ()
  publicKey := fun _ => "key"
  debugMode := true
  now := 1000

theorem dereference_local_url_db_only_witness :
    (dereference envLocalAbsent "http://localhost:8002/u/1" Effects.none).2 =
        Effects.none ∧
      (dereference envLocalAbsent "http://localhost:8002/u/1" Effects.none).1 =
        .error Err.NotFound :=
  ⟨(dereference_local_url_db_only envLocalAbsent "http://localhost:8002/u/1"
      Effects.none rfl).1,
   (dereference_local_url_db_only envLocalAbsent "http://localhost:8002/u/1"
      Effects.none rfl).2 rfl⟩

/-- C4: for a non-local identifier whose cached copy has a
last-refreshed timestamp newer than the staleness threshold,
`dereference` returns the cached instance and the effects log is
untouched (zero network fetches). -/
theorem dereference_fresh_cached (env : Env) (u : String) (o : Nat) (t : Int)
    (eff : Effects)
    (hnl : env.isLocal u = false)
    (hdb : env.dbRead u = .ok (some o))
    (hlr : env.lastRefreshed o = some t)
    (hfresh : should_refetch_object env.debugMode env.now t = false) :
    dereference env u eff = (.ok o, eff) := by
  unfold dereference
  simp [hdb, hnl, hlr, hfresh]

/-- Witness for C4: a concrete non-local identifier with a fresh cached
copy (refreshed 5 seconds ago, debug interval 20 seconds). -/
def envFreshCached : Env where
  isLocal := fun _ => false
  dbRead := fun _ => .ok (some 7)
  lastRefreshed := fun _ => some 995
  fetchResult := fun _ => .error (.Other 0)
  fromApub := fun n => .ok n
  fromApubPersists := fun n => [n]
  deleteResult := fun _ => .ok ()
  publicKey := fun _ => "key"
  debugMode := true
  now := 1000

theorem dereference_fresh_cached_witness :
    dereference envFreshCached "https://lemmy.ml/u/nutomic" Effects.none =
      (.ok 7, Effects.none) :=
  dereference_fresh_cached envFreshCached "https://lemmy.ml/u/nutomic" 7 995
    Effects.none rfl rfl rfl rfl

/-- C10: for a non-local identifier whose cached copy carries no
last-refreshed timestamp, `dereference` returns the cached instance and
the effects log is untouched — such an object is never considered stale
and never refetched. -/
theorem dereference_no_timestamp_never_refetched (env : Env) (u : String)
    (o : Nat) (eff : Effects)
    (hnl : env.isLocal u = false)
    (hdb : env.dbRead u = .ok (some o))
    (hlr : env.lastRefreshed o = none) :
    dereference env u eff = (.ok o, eff) := by
  unfold dereference
  simp [hdb, hnl, hlr]

/-- Witness for C10: a concrete non-local identifier whose cached copy
has no last-refreshed timestamp. -/
def envNoTimestamp : Env where
  isLocal := fun _ => false
  dbRead := fun _ => .ok (some 3)
  lastRefreshed := fun _ => none
  fetchResult := fun _ => .error (.Other 0)
  fromApub := fun n => .ok n
  fromApubPersists := fun n => [n]
  deleteResult := fun _ => .ok ()
  publicKey := fun _ => "key"
  debugMode := false
  now := 10 ^ 9

theorem dereference_no_timestamp_never_refetched_witness :
    dereference envNoTimestamp "https://lemmy.ml/u/old" Effects.none =
      (.ok 3, Effects.none) :=
  dereference_no_timestamp_never_refetched envNoTimestamp
    "https://lemmy.ml/u/old" 3 Effects.none rfl rfl rfl

/-- C1: for a non-local identifier whose cached copy is stale, when the
network refetch reports the object deleted, `delete` is invoked on the
existing local copy and (the delete succeeding) the "fetched remote
object which was deleted" error is surfaced; and when no local copy
exists, a deleted-reporting fetch invokes no delete while surfacing the
same error. -/
theorem dereference_gone_deletes_stale_copy (env : Env) (u : String)
    (eff : Effects)
    (hnl : env.isLocal u = false)
    (hgone : env.fetchResult u = .error .ObjectDeleted) :
    (∀ o t, env.dbRead u = .ok (some o) → env.lastRefreshed o = some t →
      should_refetch_object env.debugMode env.now t = true →
      (dereference env u eff).2.deletes = eff.deletes ++ [o] ∧
        (env.deleteResult o = .ok () →
          (dereference env u eff).1 = .error (.FetchedObjectDeleted u))) ∧
    (env.dbRead u = .ok none →
      (dereference env u eff).2.deletes = eff.deletes ∧
        (dereference env u eff).1 = .error (.FetchedObjectDeleted u)) := by
  constructor
  · intro o t hdb hlr hstale
    unfold dereference dereference_from_http
    simp only [hdb, hnl, hlr, hstale, hgone]
    cases hdel : env.deleteResult o with
    | error e => simp [hdel]
    | ok v => cases v; simp [hdel]
  · intro hdb
    unfold dereference dereference_from_http
    simp [hdb, hnl, hgone]

/-- Witness for C1, stale-copy part: fetch reports deleted, cached copy
refreshed at time 0 with now = 1000 (stale under the 20 second debug
interval). -/
def envStaleGone : Env where
  isLocal := fun _ => false
  dbRead := fun _ => .ok (some 7)
  lastRefreshed := fun _ => some 0
  fetchResult := fun _ => .error .ObjectDeleted
  fromApub := fun n => .ok n
  fromApubPersists := fun n => [n]
  deleteResult := fun _ => .ok ()
  publicKey := fun _ => "key"
  debugMode := true
  now := 1000

/-- Witness for C1, no-local-copy part: same as `envStaleGone` but the
object is absent from persistence. -/
def envAbsentGone : Env :=
  { envStaleGone with dbRead := fun _ => .ok none }

theorem dereference_gone_deletes_stale_copy_witness :
    ((dereference envStaleGone "https://lemmy.ml/u/gone" Effects.none).2.deletes =
        Effects.none.deletes ++ [7] ∧
      (dereference envStaleGone "https://lemmy.ml/u/gone" Effects.none).1 =
        .error (.FetchedObjectDeleted "https://lemmy.ml/u/gone")) ∧
    ((dereference envAbsentGone "https://lemmy.ml/u/gone" Effects.none).2.deletes =
        Effects.none.deletes ∧
      (dereference envAbsentGone "https://lemmy.ml/u/gone" Effects.none).1 =
        .error (.FetchedObjectDeleted "https://lemmy.ml/u/gone")) :=
  ⟨⟨((dereference_gone_deletes_stale_copy envStaleGone "https://lemmy.ml/u/gone"
        Effects.none rfl rfl).1 7 0 rfl rfl rfl).1,
    ((dereference_gone_deletes_stale_copy envStaleGone "https://lemmy.ml/u/gone"
        Effects.none rfl rfl).1 7 0 rfl rfl rfl).2 rfl⟩,
   (dereference_gone_deletes_stale_copy envAbsentGone "https://lemmy.ml/u/gone"
      Effects.none rfl rfl).2 rfl⟩

/-- C6: deserializing a valid URL string into an `ObjectId` and
re-serializing yields exactly the same string (the identifier is a bare
URL string with no wrapping structure), and deserializing an invalid URL
string fails with `MalformedUrl`. -/
theorem object_id_serde_roundtrip :
    (∀ s : String, isValidUrlString s = true →
      ∃ oid, deserialize_object_id s = .ok oid ∧ serialize_object_id oid = s) ∧
    (∀ s : String, isValidUrlString s = false →
      deserialize_object_id s = .error .MalformedUrl) := by
  constructor
  · intro s hs
    refine ⟨⟨⟨s⟩⟩, ?_, rfl⟩
    unfold deserialize_object_id Url.parse
    simp [hs]
  · intro s hs
    unfold deserialize_object_id Url.parse
    simp [hs]

theorem object_id_serde_roundtrip_witness :
    (∃ oid, deserialize_object_id "http://test.com/" = .ok oid ∧
      serialize_object_id oid = "http://test.com/") ∧
    deserialize_object_id "not a url" = .error .MalformedUrl :=
  ⟨object_id_serde_roundtrip.1 "http://test.com/" (by decide),
   object_id_serde_roundtrip.2 "not a url" (by decide)⟩

theorem receive_actix_digest_err (env : Env) (ienv : InEnv) (r : HttpRequest)
    (body : String) (eff : Effects) (e : Err)
    (h1 : ienv.verifyInboxHash r.headers.digest body = .error e) :
    receive_activity_actix env ienv r body eff = (.error e, eff, [Step.digest]) := by
  simp only [receive_activity_actix, h1]

theorem receive_actix_parse_err (env : Env) (ienv : InEnv) (r : HttpRequest)
    (body : String) (eff : Effects) (e : Err)
    (h1 : ienv.verifyInboxHash r.headers.digest body = .ok ())
    (h2 : ienv.parseActivity body = .error e) :
    receive_activity_actix env ienv r body eff =
      (.error e, eff, [Step.digest, Step.parse]) := by
  simp only [receive_activity_actix, h1, h2]

theorem receive_actix_domain_err (env : Env) (ienv : InEnv) (r : HttpRequest)
    (body : String) (eff : Effects) (activity : Activity) (e : Err)
    (h1 : ienv.verifyInboxHash r.headers.digest body = .ok ())
    (h2 : ienv.parseActivity body = .ok activity)
    (h3 : ienv.verifyUrlAndDomain activity = .error e) :
    receive_activity_actix env ienv r body eff =
      (.error e, eff, [Step.digest, Step.parse, Step.domainCheck]) := by
  simp only [receive_activity_actix, h1, h2, h3]

theorem receive_actix_deref_err (env : Env) (ienv : InEnv) (r : HttpRequest)
    (body : String) (eff eff1 : Effects) (activity : Activity) (e : Err)
    (h1 : ienv.verifyInboxHash r.headers.digest body = .ok ())
    (h2 : ienv.parseActivity body = .ok activity)
    (h3 : ienv.verifyUrlAndDomain activity = .ok ())
    (h4 : dereference env activity.actor eff = (.error e, eff1)) :
    receive_activity_actix env ienv r body eff =
      (.error e, eff1,
       [Step.digest, Step.parse, Step.domainCheck, Step.actorResolve]) := by
  simp only [receive_activity_actix, h1, h2, h3, h4]

theorem receive_actix_sig_err (env : Env) (ienv : InEnv) (r : HttpRequest)
    (body : String) (eff eff1 : Effects) (activity : Activity) (a : Nat) (e : Err)
    (h1 : ienv.verifyInboxHash r.headers.digest body = .ok ())
    (h2 : ienv.parseActivity body = .ok activity)
    (h3 : ienv.verifyUrlAndDomain activity = .ok ())
    (h4 : dereference env activity.actor eff = (.ok a, eff1))
    (h5 : ienv.verifySignature r.headers r.method r.uri (env.publicKey a) =
      .error e) :
    receive_activity_actix env ienv r body eff =
      (.error e, eff1,
       [Step.digest, Step.parse, Step.domainCheck, Step.actorResolve,
        Step.signatureCheck]) := by
  simp only [receive_activity_actix, h1, h2, h3, h4, h5]

theorem receive_actix_dispatch_err (env : Env) (ienv : InEnv) (r : HttpRequest)
    (body : String) (eff eff1 : Effects) (activity : Activity) (a : Nat) (e : Err)
    (h1 : ienv.verifyInboxHash r.headers.digest body = .ok ())
    (h2 : ienv.parseActivity body = .ok activity)
    (h3 : ienv.verifyUrlAndDomain activity = .ok ())
    (h4 : dereference env activity.actor eff = (.ok a, eff1))
    (h5 : ienv.verifySignature r.headers r.method r.uri (env.publicKey a) = .ok ())
    (h6 : ienv.dispatchResult activity = .error e) :
    receive_activity_actix env ienv r body eff =
      (.error e,
       { eff1 with persists := eff1.persists ++ ienv.dispatchPersists activity },
       pipelineSteps) := by
  simp only [receive_activity_actix, h1, h2, h3, h4, h5, h6]

theorem receive_actix_dispatch_ok (env : Env) (ienv : InEnv) (r : HttpRequest)
    (body : String) (eff eff1 : Effects) (activity : Activity) (a : Nat)
    (h1 : ienv.verifyInboxHash r.headers.digest body = .ok ())
    (h2 : ienv.parseActivity body = .ok activity)
    (h3 : ienv.verifyUrlAndDomain activity = .ok ())
    (h4 : dereference env activity.actor eff = (.ok a, eff1))
    (h5 : ienv.verifySignature r.headers r.method r.uri (env.publicKey a) = .ok ())
    (h6 : ienv.dispatchResult activity = .ok ()) :
    receive_activity_actix env ienv r body eff =
      (.ok HttpResponse.Ok,
       { eff1 with persists := eff1.persists ++ ienv.dispatchPersists activity },
       pipelineSteps) := by
  simp only [receive_activity_actix, h1, h2, h3, h4, h5, h6]

theorem receive_axum_digest_err (env : Env) (ienv : InEnv) (ad : ActivityData)
    (eff : Effects) (e : Err)
    (h1 : ienv.verifyInboxHash ad.headers.digest ad.body = .error e) :
    receive_activity_axum env ienv ad eff = (.error e, eff, [Step.digest]) := by
  simp only [receive_activity_axum, h1]

theorem receive_axum_parse_err (env : Env) (ienv : InEnv) (ad : ActivityData)
    (eff : Effects) (e : Err)
    (h1 : ienv.verifyInboxHash ad.headers.digest ad.body = .ok ())
    (h2 : ienv.parseActivity ad.body = .error e) :
    receive_activity_axum env ienv ad eff =
      (.error e, eff, [Step.digest, Step.parse]) := by
  simp only [receive_activity_axum, h1, h2]

theorem receive_axum_domain_err (env : Env) (ienv : InEnv) (ad : ActivityData)
    (eff : Effects) (activity : Activity) (e : Err)
    (h1 : ienv.verifyInboxHash ad.headers.digest ad.body = .ok ())
    (h2 : ienv.parseActivity ad.body = .ok activity)
    (h3 : ienv.verifyUrlAndDomain activity = .error e) :
    receive_activity_axum env ienv ad eff =
      (.error e, eff, [Step.digest, Step.parse, Step.domainCheck]) := by
  simp only [receive_activity_axum, h1, h2, h3]

theorem receive_axum_deref_err (env : Env) (ienv : InEnv) (ad : ActivityData)
    (eff eff1 : Effects) (activity : Activity) (e : Err)
    (h1 : ienv.verifyInboxHash ad.headers.digest ad.body = .ok ())
    (h2 : ienv.parseActivity ad.body = .ok activity)
    (h3 : ienv.verifyUrlAndDomain activity = .ok ())
    (h4 : dereference env activity.actor eff = (.error e, eff1)) :
    receive_activity_axum env ienv ad eff =
      (.error e, eff1,
       [Step.digest, Step.parse, Step.domainCheck, Step.actorResolve]) := by
  simp only [receive_activity_axum, h1, h2, h3, h4]

theorem receive_axum_sig_err (env : Env) (ienv : InEnv) (ad : ActivityData)
    (eff eff1 : Effects) (activity : Activity) (a : Nat) (e : Err)
    (h1 : ienv.verifyInboxHash ad.headers.digest ad.body = .ok ())
    (h2 : ienv.parseActivity ad.body = .ok activity)
    (h3 : ienv.verifyUrlAndDomain activity = .ok ())
    (h4 : dereference env activity.actor eff = (.ok a, eff1))
    (h5 : ienv.verifySignature ad.headers ad.method ad.uri (env.publicKey a) =
      .error e) :
    receive_activity_axum env ienv ad eff =
      (.error e, eff1,
       [Step.digest, Step.parse, Step.domainCheck, Step.actorResolve,
        Step.signatureCheck]) := by
  simp only [receive_activity_axum, h1, h2, h3, h4, h5]

theorem receive_axum_dispatch_err (env : Env) (ienv : InEnv) (ad : ActivityData)
    (eff eff1 : Effects) (activity : Activity) (a : Nat) (e : Err)
    (h1 : ienv.verifyInboxHash ad.headers.digest ad.body = .ok ())
    (h2 : ienv.parseActivity ad.body = .ok activity)
    (h3 : ienv.verifyUrlAndDomain activity = .ok ())
    (h4 : dereference env activity.actor eff = (.ok a, eff1))
    (h5 : ienv.verifySignature ad.headers ad.method ad.uri (env.publicKey a) = .ok ())
    (h6 : ienv.dispatchResult activity = .error e) :
    receive_activity_axum env ienv ad eff =
      (.error e,
       { eff1 with persists := eff1.persists ++ ienv.dispatchPersists activity },
       pipelineSteps) := by
  simp only [receive_activity_axum, h1, h2, h3, h4, h5, h6]

theorem receive_axum_dispatch_ok (env : Env) (ienv : InEnv) (ad : ActivityData)
    (eff eff1 : Effects) (activity : Activity) (a : Nat)
    (h1 : ienv.verifyInboxHash ad.headers.digest ad.body = .ok ())
    (h2 : ienv.parseActivity ad.body = .ok activity)
    (h3 : ienv.verifyUrlAndDomain activity = .ok ())
    (h4 : dereference env activity.actor eff = (.ok a, eff1))
    (h5 : ienv.verifySignature ad.headers ad.method ad.uri (env.publicKey a) = .ok ())
    (h6 : ienv.dispatchResult activity = .ok ()) :
    receive_activity_axum env ienv ad eff =
      (.ok (),
       { eff1 with persists := eff1.persists ++ ienv.dispatchPersists activity },
       pipelineSteps) := by
  simp only [receive_activity_axum, h1, h2, h3, h4, h5, h6]

theorem receive_actix_steps_take (env : Env) (ienv : InEnv) (r : HttpRequest)
    (body : String) (eff : Effects) :
    ∃ k, (receive_activity_actix env ienv r body eff).2.2 = pipelineSteps.take k := by
  cases h1 : ienv.verifyInboxHash r.headers.digest body with
  | error e => exact ⟨1, by rw [receive_actix_digest_err env ienv r body eff e h1]; rfl⟩
  | ok u =>
    cases u
    cases h2 : ienv.parseActivity body with
    | error e => exact ⟨2, by rw [receive_actix_parse_err env ienv r body eff e h1 h2]; rfl⟩
    | ok activity =>
      cases h3 : ienv.verifyUrlAndDomain activity with
      | error e =>
        exact ⟨3, by rw [receive_actix_domain_err env ienv r body eff activity e h1 h2 h3]; rfl⟩
      | ok v =>
        cases v
        cases h4 : dereference env activity.actor eff with
        | mk res eff1 =>
          cases res with
          | error e =>
            exact ⟨4, by rw [receive_actix_deref_err env ienv r body eff eff1 activity e h1 h2 h3 h4]; rfl⟩
          | ok a =>
            cases h5 : ienv.verifySignature r.headers r.method r.uri (env.publicKey a) with
            | error e =>
              exact ⟨5, by rw [receive_actix_sig_err env ienv r body eff eff1 activity a e h1 h2 h3 h4 h5]; rfl⟩
            | ok w =>
              cases w
              cases h6 : ienv.dispatchResult activity with
              | error e =>
                exact ⟨6, by rw [receive_actix_dispatch_err env ienv r body eff eff1 activity a e h1 h2 h3 h4 h5 h6]; rfl⟩
              | ok z =>
                cases z
                exact ⟨6, by rw [receive_actix_dispatch_ok env ienv r body eff eff1 activity a h1 h2 h3 h4 h5 h6]; rfl⟩

theorem receive_axum_steps_take (env : Env) (ienv : InEnv) (ad : ActivityData)
    (eff : Effects) :
    ∃ k, (receive_activity_axum env ienv ad eff).2.2 = pipelineSteps.take k := by
  cases h1 : ienv.verifyInboxHash ad.headers.digest ad.body with
  | error e => exact ⟨1, by rw [receive_axum_digest_err env ienv ad eff e h1]; rfl⟩
  | ok u =>
    cases u
    cases h2 : ienv.parseActivity ad.body with
    | error e => exact ⟨2, by rw [receive_axum_parse_err env ienv ad eff e h1 h2]; rfl⟩
    | ok activity =>
      cases h3 : ienv.verifyUrlAndDomain activity with
      | error e =>
        exact ⟨3, by rw [receive_axum_domain_err env ienv ad eff activity e h1 h2 h3]; rfl⟩
      | ok v =>
        cases v
        cases h4 : dereference env activity.actor eff with
        | mk res eff1 =>
          cases res with
          | error e =>
            exact ⟨4, by rw [receive_axum_deref_err env ienv ad eff eff1 activity e h1 h2 h3 h4]; rfl⟩
          | ok a =>
            cases h5 : ienv.verifySignature ad.headers ad.method ad.uri (env.publicKey a) with
            | error e =>
              exact ⟨5, by rw [receive_axum_sig_err env ienv ad eff eff1 activity a e h1 h2 h3 h4 h5]; rfl⟩
            | ok w =>
              cases w
              cases h6 : ienv.dispatchResult activity with
              | error e =>
                exact ⟨6, by rw [receive_axum_dispatch_err env ienv ad eff eff1 activity a e h1 h2 h3 h4 h5 h6]; rfl⟩
              | ok z =>
                cases z
                exact ⟨6, by rw [receive_axum_dispatch_ok env ienv ad eff eff1 activity a h1 h2 h3 h4 h5 h6]; rfl⟩

/-- C3: the six pipeline steps of `receive_activity` run strictly in
the order digest, parse, domain check, actor resolution, signature
verification, dispatch — the step log is always a prefix of that order,
so any failure short-circuits all remaining steps — and, with the
spec-modelled digest verifier, a request whose body does not match the
declared digest header fails with `ActivityBodyDigestInvalid` after the
digest step alone, so signature verification is never reached.  Both the
actix-web and the axum function are covered. -/
theorem receive_pipeline_order_and_digest_short_circuit
    (env : Env) (ienv : InEnv) (r : HttpRequest) (body : String)
    (ad : ActivityData) (eff : Effects)
    (hdig : ienv.verifyInboxHash = spec_verify_inbox_hash) :
    (∃ k, (receive_activity_actix env ienv r body eff).2.2 = pipelineSteps.take k) ∧
    (∃ k, (receive_activity_axum env ienv ad eff).2.2 = pipelineSteps.take k) ∧
    (r.headers.digest ≠ some (spec_digest body) →
      (receive_activity_actix env ienv r body eff).1 =
          .error .ActivityBodyDigestInvalid ∧
        (receive_activity_actix env ienv r body eff).2.2 = [Step.digest]) ∧
    (ad.headers.digest ≠ some (spec_digest ad.body) →
      (receive_activity_axum env ienv ad eff).1 =
          .error .ActivityBodyDigestInvalid ∧
        (receive_activity_axum env ienv ad eff).2.2 = [Step.digest]) := by
  refine ⟨receive_actix_steps_take env ienv r body eff,
          receive_axum_steps_take env ienv ad eff, ?_, ?_⟩
  · intro hne
    have h1 : ienv.verifyInboxHash r.headers.digest body =
        .error .ActivityBodyDigestInvalid := by
      rw [hdig]; unfold spec_verify_inbox_hash; simp [hne]
    rw [receive_actix_digest_err env ienv r body eff _ h1]
    exact ⟨rfl, rfl⟩
  · intro hne
    have h1 : ienv.verifyInboxHash ad.headers.digest ad.body =
        .error .ActivityBodyDigestInvalid := by
      rw [hdig]; unfold spec_verify_inbox_hash; simp [hne]
    rw [receive_axum_digest_err env ienv ad eff _ h1]
    exact ⟨rfl, rfl⟩

/-- Witness environment for C3: a non-local actor with a fresh cached
copy, so actor resolution would succeed were it reached. -/
def envPipelineW : Env where
  isLocal := fun _ => false
  dbRead := fun _ => .ok (some 5)
  lastRefreshed := fun _ => none
  fetchResult := fun _ => .error (.Other 0)
  fromApub := fun n => .ok n
  fromApubPersists := fun n => [n]
  deleteResult := fun _ => .ok ()
  publicKey := fun _ => "actorkey"
  debugMode := true
  now := 1000

/-- Witness collaborators for C3: the digest verifier is the
spec-modelled one; every later step would succeed. -/
def ienvPipelineW : InEnv where
  verifyInboxHash := spec_verify_inbox_hash
  parseActivity := fun _ => .ok ⟨"http://localhost:123/1", "http://localhost:123"⟩
  verifyUrlAndDomain := fun _ => .ok ()
  verifySignature := fun _ _ _ _ => .ok ()
  dispatchResult := fun _ => .ok ()
  dispatchPersists := fun _ => []

/-- Witness request for C3: signed over the original body, delivered
with body `invalid`. -/
def reqInvalidBody : HttpRequest where
  headers := { digest := some (spec_digest "original body"), signatureHeader := none }
  method := "POST"
  uri := "/inbox"

theorem receive_pipeline_order_and_digest_short_circuit_witness :
    (receive_activity_actix envPipelineW ienvPipelineW reqInvalidBody "invalid"
        Effects.none).1 = .error .ActivityBodyDigestInvalid ∧
      (receive_activity_actix envPipelineW ienvPipelineW reqInvalidBody "invalid"
        Effects.none).2.2 = [Step.digest] :=
  (receive_pipeline_order_and_digest_short_circuit envPipelineW ienvPipelineW
      reqInvalidBody "invalid"
      ⟨reqInvalidBody.headers, "POST", "/inbox", "invalid"⟩ Effects.none
      rfl).2.2.1 (by decide)

/-- C7: with the spec-modelled signature verifier, a well-formed,
correctly digested request whose signature was computed over a different
target path than the one it is delivered to fails with
`ActivitySignatureInvalid`: the verifier checks the signature against
the request's method, target URI and headers using the resolved actor's
public key, so a changed path makes verification fail even though body
and digest remain valid (all earlier steps succeed). -/
theorem receive_wrong_path_signature_invalid
    (env : Env) (ienv : InEnv) (r : HttpRequest) (body : String)
    (eff eff1 : Effects) (activity : Activity) (a : Nat) (s : Sig)
    (hsigimpl : ienv.verifySignature = spec_verify_signature)
    (h1 : ienv.verifyInboxHash r.headers.digest body = .ok ())
    (h2 : ienv.parseActivity body = .ok activity)
    (h3 : ienv.verifyUrlAndDomain activity = .ok ())
    (h4 : dereference env activity.actor eff = (.ok a, eff1))
    (hs : r.headers.signatureHeader = some s)
    (hkey : s.key = env.publicKey a)
    (hmethod : s.method = r.method)
    (huri : s.uri ≠ r.uri) :
    (receive_activity_actix env ienv r body eff).1 =
      .error .ActivitySignatureInvalid := by
  have h5 : ienv.verifySignature r.headers r.method r.uri (env.publicKey a) =
      .error .ActivitySignatureInvalid := by
    rw [hsigimpl]
    unfold spec_verify_signature
    rw [hs]
    have hne : s ≠ Sig.mk (env.publicKey a) r.method r.uri s.headersTag := by
      intro hcontra
      exact huri (by rw [hcontra])
    simp [hne]
  rw [receive_actix_sig_err env ienv r body eff eff1 activity a _ h1 h2 h3 h4 h5]

/-- Witness environment for C7: a non-local actor cached with no
timestamp, public key `actorkey`. -/
def envSigW : Env where
  isLocal := fun _ => false
  dbRead := fun _ => .ok (some 5)
  lastRefreshed := fun _ => none
  fetchResult := fun _ => .error (.Other 0)
  fromApub := fun n => .ok n
  fromApubPersists := fun n => [n]
  deleteResult := fun _ => .ok ()
  publicKey := fun _ => "actorkey"
  debugMode := true
  now := 1000

/-- Witness collaborators for C7: spec-modelled digest and signature
verifiers, all host steps succeeding. -/
def ienvSigW : InEnv where
  verifyInboxHash := spec_verify_inbox_hash
  parseActivity := fun _ => .ok ⟨"http://localhost:123/1", "http://localhost:123"⟩
  verifyUrlAndDomain := fun _ => .ok ()
  verifySignature := spec_verify_signature
  dispatchResult := fun _ => .ok ()
  dispatchPersists := fun _ => []

/-- Witness signature for C7: computed with the actor's key over POST
`/inbox`. -/
def sigOverInbox : Sig where
  key := "actorkey"
  method := "POST"
  uri := "/inbox"
  headersTag := "signed-headers"

/-- Witness request for C7: the signed request replayed against
`/wrong`, body and digest untouched. -/
def reqWrongPath : HttpRequest where
  headers := { digest := some (spec_digest "the body"), signatureHeader := some sigOverInbox }
  method := "POST"
  uri := "/wrong"

theorem receive_wrong_path_signature_invalid_witness :
    (receive_activity_actix envSigW ienvSigW reqWrongPath "the body"
        Effects.none).1 = .error .ActivitySignatureInvalid :=
  receive_wrong_path_signature_invalid envSigW ienvSigW reqWrongPath "the body"
    Effects.none Effects.none ⟨"http://localhost:123/1", "http://localhost:123"⟩ 5
    sigOverInbox rfl rfl rfl rfl rfl rfl rfl rfl (by decide)

/-- C8: once actor resolution has succeeded with effects `eff1`
(containing any actors it persisted), a failing signature verification
leaves the effects exactly at `eff1`, and a failing dispatch only
appends the dispatch's own writes — `receive_activity` never rolls back
the resolver's side effects on a later failure, so a persisted actor
remains. -/
theorem receive_no_rollback_of_actor_resolution
    (env : Env) (ienv : InEnv) (r : HttpRequest) (body : String)
    (eff eff1 : Effects) (activity : Activity) (a : Nat)
    (h1 : ienv.verifyInboxHash r.headers.digest body = .ok ())
    (h2 : ienv.parseActivity body = .ok activity)
    (h3 : ienv.verifyUrlAndDomain activity = .ok ())
    (h4 : dereference env activity.actor eff = (.ok a, eff1)) :
    (∀ e, ienv.verifySignature r.headers r.method r.uri (env.publicKey a) =
        .error e →
      (receive_activity_actix env ienv r body eff).1 = .error e ∧
        (receive_activity_actix env ienv r body eff).2.1 = eff1) ∧
    (∀ e, ienv.verifySignature r.headers r.method r.uri (env.publicKey a) =
        .ok () →
      ienv.dispatchResult activity = .error e →
      (receive_activity_actix env ienv r body eff).1 = .error e ∧
        (receive_activity_actix env ienv r body eff).2.1.persists =
            eff1.persists ++ ienv.dispatchPersists activity ∧
          (receive_activity_actix env ienv r body eff).2.1.deletes =
            eff1.deletes) := by
  constructor
  · intro e h5
    rw [receive_actix_sig_err env ienv r body eff eff1 activity a e h1 h2 h3 h4 h5]
    exact ⟨rfl, rfl⟩
  · intro e h5 h6
    rw [receive_actix_dispatch_err env ienv r body eff eff1 activity a e h1 h2 h3 h4 h5 h6]
    exact ⟨rfl, rfl, rfl⟩

/-- Witness environment for C8: the actor is absent locally, the fetch
succeeds and `from_apub` persists actor 42. -/
def envPersistW : Env where
  isLocal := fun _ => false
  dbRead := fun _ => .ok none
  lastRefreshed := fun _ => none
  fetchResult := fun _ => .ok 42
  fromApub := fun n => .ok n
  fromApubPersists := fun n => [n]
  deleteResult := fun _ => .ok ()
  publicKey := fun _ => "actorkey"
  debugMode := true
  now := 1000

/-- Witness collaborators for C8, first part: signature verification
fails after a successful actor resolution. -/
def ienvSigFailW : InEnv where
  verifyInboxHash := fun _ _ => .ok ()
  parseActivity := fun _ => .ok ⟨"http://localhost:123/1", "http://localhost:123"⟩
  verifyUrlAndDomain := fun _ => .ok ()
  verifySignature := fun _ _ _ _ => .error .ActivitySignatureInvalid
  dispatchResult := fun _ => .ok ()
  dispatchPersists := fun _ => []

/-- Witness collaborators for C8, second part: signature verification
succeeds and dispatch fails. -/
def ienvDispatchFailW : InEnv where
  verifyInboxHash := fun _ _ => .ok ()
  parseActivity := fun _ => .ok ⟨"http://localhost:123/1", "http://localhost:123"⟩
  verifyUrlAndDomain := fun _ => .ok ()
  verifySignature := fun _ _ _ _ => .ok ()
  dispatchResult := fun _ => .error (.Other 9)
  dispatchPersists := fun _ => []

/-- Witness request for C8. -/
def reqPersistW : HttpRequest where
  headers := { digest := some "d", signatureHeader := none }
  method := "POST"
  uri := "/inbox"

theorem receive_no_rollback_of_actor_resolution_witness :
    ((receive_activity_actix envPersistW ienvSigFailW reqPersistW "body"
          Effects.none).1 = .error .ActivitySignatureInvalid ∧
      (receive_activity_actix envPersistW ienvSigFailW reqPersistW "body"
          Effects.none).2.1 = ⟨1, [], [42]⟩) ∧
    ((receive_activity_actix envPersistW ienvDispatchFailW reqPersistW "body"
          Effects.none).1 = .error (.Other 9) ∧
      (receive_activity_actix envPersistW ienvDispatchFailW reqPersistW "body"
          Effects.none).2.1.persists = [42]) :=
  ⟨(receive_no_rollback_of_actor_resolution envPersistW ienvSigFailW reqPersistW
      "body" Effects.none ⟨1, [], [42]⟩
      ⟨"http://localhost:123/1", "http://localhost:123"⟩ 42
      rfl rfl rfl rfl).1 .ActivitySignatureInvalid rfl,
   ((receive_no_rollback_of_actor_resolution envPersistW ienvDispatchFailW
      reqPersistW "body" Effects.none ⟨1, [], [42]⟩
      ⟨"http://localhost:123/1", "http://localhost:123"⟩ 42
      rfl rfl rfl rfl).2 (.Other 9) rfl rfl).1,
   ((receive_no_rollback_of_actor_resolution envPersistW ienvDispatchFailW
      reqPersistW "body" Effects.none ⟨1, [], [42]⟩
      ⟨"http://localhost:123/1", "http://localhost:123"⟩ 42
      rfl rfl rfl rfl).2 (.Other 9) rfl rfl).2.1⟩

/-- C9: the actix-web and axum `receive_activity` functions are
behaviorally equivalent: on any abstract request — same header map,
method, target URI and body — and the same collaborators they produce
the same success-or-error outcome (the actix `HttpResponse::Ok` mapped
to the axum unit), the same effects and the same step log. -/
theorem receive_adapters_equivalent
    (env : Env) (ienv : InEnv) (r : HttpRequest) (body : String)
    (ad : ActivityData) (eff : Effects)
    (hh : ad.headers = r.headers) (hm : ad.method = r.method)
    (hu : ad.uri = r.uri) (hb : ad.body = body) :
    (receive_activity_actix env ienv r body eff).1.map (fun _ => ()) =
        (receive_activity_axum env ienv ad eff).1 ∧
      (receive_activity_actix env ienv r body eff).2 =
        (receive_activity_axum env ienv ad eff).2 := by
  obtain ⟨adh, adm, adu, adb⟩ := ad
  dsimp only at hh hm hu hb
  subst hh; subst hm; subst hu; subst adb
  cases h1 : ienv.verifyInboxHash r.headers.digest body with
  | error e =>
    rw [receive_actix_digest_err env ienv r body eff e h1,
        receive_axum_digest_err env ienv ⟨r.headers, r.method, r.uri, body⟩ eff e h1]
    exact ⟨rfl, rfl⟩
  | ok u =>
    cases u
    cases h2 : ienv.parseActivity body with
    | error e =>
      rw [receive_actix_parse_err env ienv r body eff e h1 h2,
          receive_axum_parse_err env ienv ⟨r.headers, r.method, r.uri, body⟩ eff e h1 h2]
      exact ⟨rfl, rfl⟩
    | ok activity =>
      cases h3 : ienv.verifyUrlAndDomain activity with
      | error e =>
        rw [receive_actix_domain_err env ienv r body eff activity e h1 h2 h3,
            receive_axum_domain_err env ienv ⟨r.headers, r.method, r.uri, body⟩ eff activity e h1 h2 h3]
        exact ⟨rfl, rfl⟩
      | ok v =>
        cases v
        cases h4 : dereference env activity.actor eff with
        | mk res eff1 =>
          cases res with
          | error e =>
            rw [receive_actix_deref_err env ienv r body eff eff1 activity e h1 h2 h3 h4,
                receive_axum_deref_err env ienv ⟨r.headers, r.method, r.uri, body⟩ eff eff1 activity e h1 h2 h3 h4]
            exact ⟨rfl, rfl⟩
          | ok a =>
            cases h5 : ienv.verifySignature r.headers r.method r.uri (env.publicKey a) with
            | error e =>
              rw [receive_actix_sig_err env ienv r body eff eff1 activity a e h1 h2 h3 h4 h5,
                  receive_axum_sig_err env ienv ⟨r.headers, r.method, r.uri, body⟩ eff eff1 activity a e h1 h2 h3 h4 h5]
              exact ⟨rfl, rfl⟩
            | ok w =>
              cases w
              cases h6 : ienv.dispatchResult activity with
              | error e =>
                rw [receive_actix_dispatch_err env ienv r body eff eff1 activity a e h1 h2 h3 h4 h5 h6,
                    receive_axum_dispatch_err env ienv ⟨r.headers, r.method, r.uri, body⟩ eff eff1 activity a e h1 h2 h3 h4 h5 h6]
                exact ⟨rfl, rfl⟩
              | ok z =>
                cases z
                rw [receive_actix_dispatch_ok env ienv r body eff eff1 activity a h1 h2 h3 h4 h5 h6,
                    receive_axum_dispatch_ok env ienv ⟨r.headers, r.method, r.uri, body⟩ eff eff1 activity a h1 h2 h3 h4 h5 h6]
                exact ⟨rfl, rfl⟩

/-- Witness environment for C9: a full successful run (fresh cached
actor, all collaborators succeeding). -/
def envEquivW : Env where
  isLocal := fun _ => false
  dbRead := fun _ => .ok (some 5)
  lastRefreshed := fun _ => none
  fetchResult := fun _ => .error (.Other 0)
  fromApub := fun n => .ok n
  fromApubPersists := fun n => [n]
  deleteResult := fun _ => .ok ()
  publicKey := fun _ => "actorkey"
  debugMode := true
  now := 1000

/-- Witness collaborators for C9. -/
def ienvEquivW : InEnv where
  verifyInboxHash := fun _ _ => .ok ()
  parseActivity := fun _ => .ok ⟨"http://localhost:123/1", "http://localhost:123"⟩
  verifyUrlAndDomain := fun _ => .ok ()
  verifySignature := fun _ _ _ _ => .ok ()
  dispatchResult := fun _ => .ok ()
  dispatchPersists := fun _ => [8]

/-- Witness request for C9, actix form. -/
def reqEquivW : HttpRequest where
  headers := { digest := some "d", signatureHeader := none }
  method := "POST"
  uri := "/inbox"

/-- Witness request for C9, axum form: the same abstract request. -/
def adEquivW : ActivityData where
  headers := { digest := some "d", signatureHeader := none }
  method := "POST"
  uri := "/inbox"
  body := "body"

theorem receive_adapters_equivalent_witness :
    (receive_activity_actix envEquivW ienvEquivW reqEquivW "body"
          Effects.none).1.map (fun _ => ()) =
        (receive_activity_axum envEquivW ienvEquivW adEquivW Effects.none).1 ∧
      (receive_activity_actix envEquivW ienvEquivW reqEquivW "body"
          Effects.none).2 =
        (receive_activity_axum envEquivW ienvEquivW adEquivW Effects.none).2 :=
  receive_adapters_equivalent envEquivW ienvEquivW reqEquivW "body" adEquivW
    Effects.none rfl rfl rfl rfl
